import Mathlib

/-!
Shallow embedding of the superbench device-management layer:
`superbench/common/devices/gpu.py` (vendor probe) and
`superbench/common/utils/device_manager.py` (the `DeviceManager` facade and
its NVIDIA / AMD / Ascend variants).

Python strings are modelled as Lean `String`s, Python `int` as `Int`,
Python `float` values arising here as exact decimals (every numeric value
appearing in the verified inputs is exactly representable in a double, so
the exact model agrees with IEEE semantics on them), Python `None` as
`Option.none`, raised exceptions as `Except.error` with an explicit error
kind, and the external world (filesystem, vendor backends, spawned CLI
processes) as explicit oracle parameters.
-/

set_option autoImplicit false

namespace SuperBench

/-! ## Python primitives -/

/-- Kinds of Python exceptions that the embedded code can raise. -/
inductive PyErr where
  | runtimeError
  | attributeError
  | valueError
  | indexError
  deriving DecidableEq, Repr

/-- Decidable equality of embedded fallible results. -/
instance {e a : Type} [DecidableEq e] [DecidableEq a] : DecidableEq (Except e a) :=
  fun x y =>
    match x, y with
    | .ok u, .ok v =>
      if h : u = v then isTrue (by rw [h]) else isFalse (by intro hh; cases hh; exact h rfl)
    | .error u, .error v =>
      if h : u = v then isTrue (by rw [h]) else isFalse (by intro hh; cases hh; exact h rfl)
    | .ok _, .error _ => isFalse (by intro hh; cases hh)
    | .error _, .ok _ => isFalse (by intro hh; cases hh)

/-- Python whitespace recognised by `str.strip()` (ASCII fragment). -/
def isPySpace (c : Char) : Bool :=
  c == ' ' || c == '\t' || c == '\n' || c == '\r' || c == '\x0b' || c == '\x0c'

/-- `str.strip()`: drop leading and trailing whitespace. -/
def pyStrip (s : String) : String :=
  String.mk (((s.data.dropWhile isPySpace).reverse.dropWhile isPySpace).reverse)

/-- `str.lower()` (ASCII fragment, all inputs here are ASCII). -/
def pyLower (s : String) : String :=
  String.mk (s.data.map Char.toLower)

/-- Auxiliary fuel-driven worker for `pyReplace`. -/
def pyReplaceAux (old new : List Char) : Nat → List Char → List Char
  | _, [] => []
  | 0, cs => cs
  | fuel + 1, x :: r =>
    if !old.isEmpty && old.isPrefixOf (x :: r) then
      new ++ pyReplaceAux old new fuel ((x :: r).drop old.length)
    else
      x :: pyReplaceAux old new fuel r

/-- `str.replace(old, new)`: replace all non-overlapping occurrences left to
right (the embedded code never calls it with an empty `old`). -/
def pyReplace (s old new : String) : String :=
  if old.data.isEmpty then s
  else String.mk (pyReplaceAux old.data new.data s.data.length s.data)

/-- Worker for `str.split(sep)` with a single-character separator. -/
def splitCharAux (c : Char) : List Char → List Char → List (List Char)
  | [], acc => [acc.reverse]
  | x :: r, acc =>
    if x == c then acc.reverse :: splitCharAux c r []
    else splitCharAux c r (x :: acc)

/-- `str.split(sep)` with a single-character separator (keeps empty pieces,
exactly like Python). -/
def splitChar (c : Char) (s : String) : List String :=
  (splitCharAux c s.data []).map String.mk

/-- Worker for `str.find`: lowest index at which `sub` occurs, counting from
`i`. -/
def findSubAux (sub : List Char) : List Char → Nat → Option Nat
  | [], i => if sub.isEmpty then some i else none
  | c :: r, i => if sub.isPrefixOf (c :: r) then some i else findSubAux sub r (i + 1)

/-- `str.find(sub)`: lowest index of `sub` in `s`, or `-1`. -/
def pyFind (s sub : String) : Int :=
  match findSubAux sub.data s.data 0 with
  | some n => (n : Int)
  | none => -1

/-- `str.find(sub, start)` with a non-negative `start`. -/
def pyFindFrom (s sub : String) (start : Nat) : Int :=
  match findSubAux sub.data (s.data.drop start) start with
  | some n => (n : Int)
  | none => -1

/-- `s[b:e]` for non-negative bounds (Python clamps; the embedded call sites
always have `b ≤ e`). -/
def pySlice (s : String) (b e : Nat) : String :=
  String.mk ((s.data.drop b).take (e - b))

/-- Value of a digit string (callers ensure all characters are digits). -/
def digitsToNat (cs : List Char) : Nat :=
  cs.foldl (fun a c => 10 * a + (c.toNat - 48)) 0

/-- `int(s)`: strip whitespace, optional sign, then a non-empty run of
digits; anything else raises `ValueError`, modelled as `none`. -/
def pyInt (s : String) : Option Int :=
  match (pyStrip s).data with
  | [] => none
  | c :: rest =>
    let p := if c == '-' then (true, rest)
             else if c == '+' then (false, rest)
             else (false, c :: rest)
    if !p.2.isEmpty && p.2.all Char.isDigit then
      some (if p.1 then -(digitsToNat p.2 : Int) else (digitsToNat p.2 : Int))
    else none

/-- A Python `float` holding an exact decimal value `mant / 10 ^ frac10`.
The only float arithmetic in the repository is `float(total) * int(used)`
in the Ascend memory query, whose operands and result are exactly
representable in an IEEE double, so this exact model agrees with Python on
every verified input (binary rounding is not modelled). -/
structure PyFloat where
  mant : Int
  frac10 : Nat
  deriving DecidableEq, Repr

/-- The rational value a `PyFloat` denotes. -/
def PyFloat.toRat (f : PyFloat) : ℚ := (f.mant : ℚ) / (10 : ℚ) ^ f.frac10

/-- `float * int` (Python widens the `int`; the product keeps the decimal
scale of the float operand). -/
def PyFloat.mulInt (f : PyFloat) (n : Int) : PyFloat := ⟨f.mant * n, f.frac10⟩

/-- `float(s)` for strings drawn from the regex group `[-+]?\d*\.?\d+`
(on which Python's `float` always succeeds). -/
def pyFloat (s : String) : PyFloat :=
  match s.data with
  | [] => ⟨0, 0⟩
  | c :: rest =>
    let p := if c == '-' then (true, rest)
             else if c == '+' then (false, rest)
             else (false, c :: rest)
    let a := p.2.takeWhile Char.isDigit
    let rest2 := p.2.drop a.length
    let frac : List Char :=
      match rest2 with
      | '.' :: r => r.takeWhile Char.isDigit
      | _ => []
    let m : Int := (digitsToNat a * 10 ^ frac.length + digitsToNat frac : Nat)
    ⟨if p.1 then -m else m, frac.length⟩

/-- Normalisation Python applies to a sequence index: a negative index
counts from the end. -/
def pyNormIdx (len : Nat) (i : Int) : Int :=
  if i < 0 then i + (len : Int) else i

/-- Python list indexing `xs[i]`: a negative `i` counts from the end; an index
out of `[-len, len)` raises `IndexError`, modelled as `none`. -/
def pyListGet {α : Type} (xs : List α) (i : Int) : Option α :=
  if 0 ≤ pyNormIdx xs.length i ∧ pyNormIdx xs.length i < (xs.length : Int) then
    xs[(pyNormIdx xs.length i).toNat]?
  else none

/-! ## The labeled-number pattern of the Ascend CLI scraper

`device_manager.py` extracts every Ascend metric with
`re.search(label + r" *: *([-+]?\d*\.?\d+)", output)` where `label` is a
literal (regex-escaped) string.  The functions below embed that exact
pattern: the literal label, greedy spaces, a colon, greedy spaces, then the
signed-decimal group with Python's backtracking semantics. -/

/-- Match the group `\d*\.?\d+` at the head of `cs` (greedy, with
backtracking exactly as Python's `re` resolves it). -/
def matchNumBody (cs : List Char) : Option (List Char) :=
  let a := cs.takeWhile Char.isDigit
  let rest := cs.drop a.length
  match rest with
  | '.' :: r2 =>
    let b := r2.takeWhile Char.isDigit
    if !b.isEmpty then some (a ++ '.' :: b)
    else if !a.isEmpty then some a else none
  | _ => if !a.isEmpty then some a else none

/-- Match `[-+]?\d*\.?\d+` at the head of `cs`. -/
def matchNumber (cs : List Char) : Option (List Char) :=
  match cs with
  | [] => none
  | c :: rest =>
    if c == '+' || c == '-' then (matchNumBody rest).map (fun m => c :: m)
    else matchNumBody (c :: rest)

/-- Try the whole pattern `label *: *([-+]?\d*\.?\d+)` anchored at the head
of `cs`; return the number group on success. -/
def tryLabelAt (label : List Char) (cs : List Char) : Option (List Char) :=
  if label.isPrefixOf cs then
    let r1 := (cs.drop label.length).dropWhile (fun c => c == ' ')
    match r1 with
    | ':' :: r2 => matchNumber (r2.dropWhile (fun c => c == ' '))
    | _ => none
  else none

/-- `re.search` scan: try the pattern at every position, leftmost match
wins. -/
def searchNumAux (label : List Char) : List Char → Option (List Char)
  | [] => none
  | c :: rest =>
    match tryLabelAt label (c :: rest) with
    | some m => some m
    | none => searchNumAux label rest

/-- `re.search(label + r" *: *([-+]?\d*\.?\d+)", s)`, returning `group(1)`. -/
def searchLabeledNum (label s : String) : Option String :=
  (searchNumAux label.data s.data).map String.mk

/-! ## Insertion-ordered string-keyed dict (the Python `dict` fragment used
by the row-remap parser) -/

/-- `d[k] = v` on an insertion-ordered association list. -/
def dictSet (d : List (String × Int)) (k : String) (v : Int) : List (String × Int) :=
  if d.any (fun p => p.1 == k) then d.map (fun p => if p.1 == k then (k, v) else p)
  else d ++ [(k, v)]

/-- `d.get(k)` on an insertion-ordered association list. -/
def dictFind (d : List (String × Int)) (k : String) : Option Int :=
  match d.find? (fun p => p.1 == k) with
  | some p => some p.2
  | none => none

/-! ## VendorProbe: `GPU.get_vendor` of `superbench/common/devices/gpu.py`

The host is modelled by the exact filesystem observations the function
makes: `platform.system()`, the character-device / directory / existence
checks on the fixed `/dev` paths, the glob results (as lists of file
names), and the per-device minor-descriptor existence check. -/

inductive OSFamily where
  | linux
  | windows
  | other
  deriving DecidableEq, Repr

/-- The filesystem/OS observations `GPU.get_vendor` performs. -/
structure SysFS where
  os : OSFamily
  /-- `Path('/dev/nvidiactl').is_char_device()` -/
  nvidiactlIsCharDevice : Bool
  /-- names from `Path('/dev').glob('nvidia[0-9]*')` -/
  devNvidiaNodes : List String
  /-- `Path('/dev/kfd').is_char_device()` -/
  kfdIsCharDevice : Bool
  /-- `Path('/dev/dri').is_dir()` -/
  driIsDir : Bool
  /-- names from `Path('/dev/dri').glob('renderD*')` -/
  driRenderNodes : List String
  /-- `Path('/dev/davinci_manager').exists()` -/
  davinciManagerExists : Bool
  /-- names from `Path('/dev').glob('davinci[0-9]*')`, in glob order -/
  davinciNodes : List String
  /-- `(Path('/dev/davinci_manager/desc') / name / 'minor').exists()` -/
  minorDescExists : String → Bool
  /-- the Windows NVIDIA driver-store glob found at least one file -/
  winNvapiGlobHit : Bool
  /-- the Windows AMD driver-store glob found at least one file -/
  winAticfxGlobHit : Bool

/-- `GPU.get_vendor`, line for line.  The warnings the source logs on the
driver-present-but-no-device paths do not change the returned tag and are
not modelled. -/
def getVendor (fs : SysFS) : Option String :=
  match fs.os with
  | .linux =>
    if fs.nvidiactlIsCharDevice then some "nvidia"
    else if fs.kfdIsCharDevice && fs.driIsDir then some "amd"
    else if fs.davinciManagerExists then
      match fs.davinciNodes with
      | [] => none
      | d0 :: _ => if fs.minorDescExists d0 then some "ascend" else none
    else none
  | .windows =>
    if fs.winNvapiGlobHit then some "nvidia-graphics"
    else if fs.winAticfxGlobHit then some "amd-graphics"
    else none
  | .other => none

/-! ## `process.run_command` results -/

/-- Result of `process.run_command` (an external collaborator): exit code
plus captured streams.  The whole external world is an oracle
`String → RunResult` mapping a command line to its outcome. -/
structure RunResult where
  returncode : Int
  stdout : String
  stderr : String

/-! ## `DeviceManager` (the base / no-op variant)

Every method of the Python base class is a constant: it takes no backend
oracle and runs no external tool, embedding "zero backend interaction". -/

namespace DeviceManager

/-- `DeviceManager.get_device_count`: always `0`. -/
def get_device_count : Nat := 0

/-- `DeviceManager.get_device_compute_capability`: always `None`. -/
def get_device_compute_capability : Option PyFloat := none

/-- `DeviceManager.get_device_utilization`: always `None`. -/
def get_device_utilization (_idx : Int) : Option Int := none

/-- `DeviceManager.get_device_temperature`: always `None`. -/
def get_device_temperature (_idx : Int) : Option Int := none

/-- `DeviceManager.get_device_power`: always `None`. -/
def get_device_power (_idx : Int) : Option Int := none

/-- `DeviceManager.get_device_power_limit`: always `None`. -/
def get_device_power_limit (_idx : Int) : Option Int := none

/-- `DeviceManager.get_device_memory`: always `(None, None)`. -/
def get_device_memory (_idx : Int) : Option Int × Option Int := (none, none)

/-- `DeviceManager.get_device_row_remapped_info`: always `None`. -/
def get_device_row_remapped_info (_idx : Int) : Option (List (String × Int)) := none

/-- `DeviceManager.get_device_ecc_error`: always `(None, None)`. -/
def get_device_ecc_error (_idx : Int) : Option Int × Option Int := (none, none)

end DeviceManager

/-! ## `NvidiaDeviceManager`

The NVML backend is an oracle per call site.  `self._device_handlers` is the
list `[nvmlDeviceGetHandleByIndex(i) for i in range(count)]`, modelled as
`List.range count` (handles identified with their construction index). -/

namespace NvidiaDeviceManager

/-- Outcome of one NVML call that yields an integer: a value, an
`NVMLError`, or some other exception. -/
inductive NvRes where
  | ok (n : Int)
  | nvmlErr
  | otherErr
  deriving DecidableEq, Repr

/-- The two counter kinds queried by `get_device_ecc_error`. -/
inductive EccKind where
  | corrected
  | uncorrected
  deriving DecidableEq, Repr

/-- `NvidiaDeviceManager.get_device_utilization`: index into the handler
list and call `nvmlDeviceGetUtilizationRates` inside one `try`; any
exception (including the `IndexError` from `self._device_handlers[idx]`)
is caught and yields `None`.  `backend h` is the `util.gpu` field on
success, `Except.error ()` when the NVML call raises. -/
def get_device_utilization (deviceCount : Nat) (backend : Nat → Except Unit Int)
    (idx : Int) : Option Int :=
  match pyListGet (List.range deviceCount) idx with
  | none => none
  | some h =>
    match backend h with
    | .ok u => some u
    | .error _ => none

/-- `NvidiaDeviceManager.get_device_temperature`: `temp = None`, then one
`try` around handler indexing and `nvmlDeviceGetTemperature(...,
NVML_TEMPERATURE_GPU)`; any exception leaves `temp = None`. -/
def get_device_temperature (deviceCount : Nat) (backend : Nat → Except Unit Int)
    (idx : Int) : Option Int :=
  match pyListGet (List.range deviceCount) idx with
  | none => none
  | some h =>
    match backend h with
    | .ok t => some t
    | .error _ => none

/-- `NvidiaDeviceManager.get_device_power`: one `try` around handler
indexing and `nvmlDeviceGetPowerUsage`; any exception yields `None`.  NVML
reports a non-negative milliwatt count, on which the source's
`int(int(power) / 1000)` equals floor division by 1000 (the float quotient
of such values never rounds across an integer). -/
def get_device_power (deviceCount : Nat) (backend : Nat → Except Unit Nat)
    (idx : Int) : Option Int :=
  match pyListGet (List.range deviceCount) idx with
  | none => none
  | some h =>
    match backend h with
    | .ok p => some ((p / 1000 : Nat) : Int)
    | .error _ => none

/-- `NvidiaDeviceManager.get_device_power_limit`: one `try` around handler
indexing and `nvmlDeviceGetPowerManagementLimit`; any exception yields
`None`; same milliwatt-to-watt conversion as `get_device_power`. -/
def get_device_power_limit (deviceCount : Nat) (backend : Nat → Except Unit Nat)
    (idx : Int) : Option Int :=
  match pyListGet (List.range deviceCount) idx with
  | none => none
  | some h =>
    match backend h with
    | .ok p => some ((p / 1000 : Nat) : Int)
    | .error _ => none

/-- `NvidiaDeviceManager.get_device_memory`: one `try` around handler
indexing and `nvmlDeviceGetMemoryInfo`; any exception yields
`(None, None)`; on success the `used` and `total` fields of the returned
object. -/
def get_device_memory (deviceCount : Nat) (backend : Nat → Except Unit (Int × Int))
    (idx : Int) : Option Int × Option Int :=
  match pyListGet (List.range deviceCount) idx with
  | none => (none, none)
  | some h =>
    match backend h with
    | .ok m => (some m.1, some m.2)
    | .error _ => (none, none)

/-- The per-location loop of `NvidiaDeviceManager.get_device_ecc_error`:
for each memory location, two `try` blocks (corrected then uncorrected
counter), each re-indexing the handler list; `NVMLError` contributes
nothing, any other exception returns `(None, None)` immediately. -/
def ecc_loop (deviceCount : Nat) (backend : Nat → EccKind → Nat → NvRes) (idx : Int) :
    List Nat → Int → Int → Option Int × Option Int
  | [], c, u => (some c, some u)
  | loc :: rest, c, u =>
    match pyListGet (List.range deviceCount) idx with
    | none => (none, none)
    | some h =>
      match backend h .corrected loc with
      | .otherErr => (none, none)
      | .nvmlErr =>
        match backend h .uncorrected loc with
        | .otherErr => (none, none)
        | .nvmlErr => ecc_loop deviceCount backend idx rest c u
        | .ok k => ecc_loop deviceCount backend idx rest c (u + k)
      | .ok k =>
        match backend h .uncorrected loc with
        | .otherErr => (none, none)
        | .nvmlErr => ecc_loop deviceCount backend idx rest (c + k) u
        | .ok k2 => ecc_loop deviceCount backend idx rest (c + k) (u + k2)

/-- `NvidiaDeviceManager.get_device_ecc_error`: accumulate both counters
over `range(NVML_MEMORY_LOCATION_COUNT)` starting from `0, 0`. -/
def get_device_ecc_error (deviceCount locationCount : Nat)
    (backend : Nat → EccKind → Nat → NvRes) (idx : Int) : Option Int × Option Int :=
  ecc_loop deviceCount backend idx (List.range locationCount) 0 0

/-- `NvidiaDeviceManager.get_device_row_remapped_info`: run
`nvidia-smi -i idx -q`, slice the text between `"Remapped Rows"` and the
following `"Temperature"`, and parse each `key : value` line, skipping
lines whose value (after removing `"bank(s)"` and stripping) is not an
integer. -/
def get_device_row_remapped_info (run : String → RunResult) (idx : Int) :
    Option (List (String × Int)) :=
  let output := run ("nvidia-smi -i " ++ toString idx ++ " -q")
  if output.returncode = 0 then
    let b := pyFind output.stdout "Remapped Rows"
    if b = -1 then none
    else
      let e := pyFindFrom output.stdout "Temperature" b.toNat
      if e = -1 then none
      else
        let info := pySlice output.stdout b.toNat e.toNat
        let items := (splitChar '\n' info).filter (fun l => l.data.contains ':')
        some (items.foldl
          (fun d item =>
            let kv := splitChar ':' item
            let key := "gpu_remap_" ++ pyReplace (pyStrip (pyLower (kv.getD 0 ""))) " " "_"
            let v := pyStrip (pyReplace (kv.getD 1 "") "bank(s)" "")
            match pyInt v with
            | some n => dictSet d key n
            | none => d)
          [])
  else none

end NvidiaDeviceManager

/-! ## `AmdDeviceManager` (the part the claims touch) -/

namespace AmdDeviceManager

/-- Outcome of one `amdsmi_get_gpu_ecc_count` call: both counters of the
returned dict, an `AmdSmiLibraryException`/`AmdSmiParameterException`, or
some other exception. -/
inductive AmdEccRes where
  | ok (correctable uncorrectable : Int)
  | libErr
  | otherErr
  deriving DecidableEq, Repr

/-- `AmdDeviceManager.get_device_utilization`: one `try` around handler
indexing and `amdsmi_get_gpu_activity`; any exception yields `None`; on
success the `gfx_activity` field of the returned dict (which the amdsmi
contract always populates, so the oracle yields that field directly). -/
def get_device_utilization (handlers : List Nat) (backend : Nat → Except Unit Int)
    (idx : Int) : Option Int :=
  match pyListGet handlers idx with
  | none => none
  | some h =>
    match backend h with
    | .ok u => some u
    | .error _ => none

/-- `AmdDeviceManager.get_device_temperature`: `temp = None`, then one
`try` around handler indexing and `amdsmi_get_temp_metric(..., EDGE,
CURRENT)`; both `except` arms (library/parameter exceptions and the
generic one) leave `temp = None`. -/
def get_device_temperature (handlers : List Nat) (backend : Nat → Except Unit Int)
    (idx : Int) : Option Int :=
  match pyListGet handlers idx with
  | none => none
  | some h =>
    match backend h with
    | .ok t => some t
    | .error _ => none

/-- `AmdDeviceManager.get_device_power`: one `try` around handler indexing
and `amdsmi_get_power_info`; any exception yields `None`; on success
`int(...)` of the integer `average_socket_power` field. -/
def get_device_power (handlers : List Nat) (backend : Nat → Except Unit Int)
    (idx : Int) : Option Int :=
  match pyListGet handlers idx with
  | none => none
  | some h =>
    match backend h with
    | .ok p => some p
    | .error _ => none

/-- `AmdDeviceManager.get_device_power_limit`: one `try` around handler
indexing and `amdsmi_get_power_info`; any exception yields `None`; on
success `int(...)` of the integer `power_limit` field. -/
def get_device_power_limit (handlers : List Nat) (backend : Nat → Except Unit Int)
    (idx : Int) : Option Int :=
  match pyListGet handlers idx with
  | none => none
  | some h =>
    match backend h with
    | .ok p => some p
    | .error _ => none

/-- `AmdDeviceManager.get_device_memory`: one `try` around handler indexing
and the two sequential VRAM calls (`amdsmi_get_gpu_memory_usage`, then
`amdsmi_get_gpu_memory_total`); any exception in either yields
`(None, None)`. -/
def get_device_memory (handlers : List Nat)
    (backendUsed backendTotal : Nat → Except Unit Int) (idx : Int) :
    Option Int × Option Int :=
  match pyListGet handlers idx with
  | none => (none, none)
  | some h =>
    match backendUsed h with
    | .error _ => (none, none)
    | .ok u =>
      match backendTotal h with
      | .error _ => (none, none)
      | .ok t => (some u, some t)

/-- The per-block loop of `AmdDeviceManager.get_device_ecc_error`: handler
indexing and the backend call sit in one `try` per block; both exception
arms (`AmdSmi*Exception` and the generic `except Exception`, which also
catches the `IndexError` of `self._device_handlers[idx]`) fall through to
the next block without touching the accumulators. -/
def ecc_loop (handlers : List Nat) (backend : Nat → Nat → AmdEccRes) (idx : Int) :
    List Nat → Int → Int → Int × Int
  | [], c, u => (c, u)
  | b :: rest, c, u =>
    match pyListGet handlers idx with
    | none => ecc_loop handlers backend idx rest c u
    | some h =>
      match backend h b with
      | .ok cc uc => ecc_loop handlers backend idx rest (c + cc) (u + uc)
      | .libErr => ecc_loop handlers backend idx rest c u
      | .otherErr => ecc_loop handlers backend idx rest c u

/-- `AmdDeviceManager.get_device_ecc_error`: fold over every enumerated GPU
block; the final `return corrected_ecc, uncorrected_ecc` is reached on
every path, so the result components are never `None`. -/
def get_device_ecc_error (handlers : List Nat) (blocks : List Nat)
    (backend : Nat → Nat → AmdEccRes) (idx : Int) : Option Int × Option Int :=
  let p := ecc_loop handlers backend idx blocks 0 0
  (some p.1, some p.2)

end AmdDeviceManager

/-! ## `AscendDeviceManager`

Every metric is scraped from the `npu-smi` CLI.  The external world is an
oracle `run : String → RunResult`.  Each operation returns its result
(inside `Except`, because the Ascend methods have no `try` around their
`int()` and `.group(1)` calls, so those can raise to the caller) paired
with the list of command lines passed to `process.run_command`, which
records exactly which CLI invocations the operation performs. -/

namespace AscendDeviceManager

/-- `self._npu_smi_path`, a fixed install path. -/
def npuSmiPath : String := "/usr/local/sbin/npu-smi"

/-- `AscendDeviceManager._run_npu_smi`: spawn `npu-smi` with the given
arguments; a non-zero exit code yields `None`, otherwise the captured
stdout. -/
def run_npu_smi (run : String → RunResult) (args : String) : Option String × List String :=
  let cmd := npuSmiPath ++ " " ++ args
  let r := run cmd
  (if r.returncode ≠ 0 then none else some r.stdout, [cmd])

/-- `AscendDeviceManager.__init__` after `super().__init__()`: raise
`RuntimeError` exactly when the `npu-smi` binary is absent from its fixed
path.  (`super().__init__()` only caches the device count, whose exceptions
are all caught inside `get_device_count`.) -/
def init (npuSmiExists : Bool) : Except PyErr Unit :=
  if npuSmiExists then .ok () else .error .runtimeError

/-- `AscendDeviceManager.get_device_count`: count the `/dev/davinci[0-9]*`
nodes; any exception yields `0`. -/
def get_device_count (davinciNodes : List String) : Nat :=
  davinciNodes.length

/-- `AscendDeviceManager.get_device_utilization`: scrape
`Aicore Usages Rate(%)` from `npu-smi info -i idx -c 0 -t usage`; a falsy
output or a missing pattern yields `None`; `int()` on a fractional match
raises `ValueError`. -/
def get_device_utilization (run : String → RunResult) (idx : Int) :
    Except PyErr (Option Int) × List String :=
  let o := run_npu_smi run ("info -i " ++ toString idx ++ " -c 0 -t usage")
  let res : Except PyErr (Option Int) :=
    match o.1 with
    | none => .ok none
    | some s =>
      if s.data.isEmpty then .ok none
      else
        match searchLabeledNum "Aicore Usages Rate(%)" s with
        | none => .ok none
        | some numStr =>
          match pyInt numStr with
          | some n => .ok (some n)
          | none => .error .valueError
  (res, o.2)

/-- `AscendDeviceManager.get_device_temperature`: scrape
`NPU Temperature (C)` from `npu-smi info  -i idx -c 0 -t temp` (the doubled
space after `info` is in the source). -/
def get_device_temperature (run : String → RunResult) (idx : Int) :
    Except PyErr (Option Int) × List String :=
  let o := run_npu_smi run ("info  -i " ++ toString idx ++ " -c 0 -t temp")
  let res : Except PyErr (Option Int) :=
    match o.1 with
    | none => .ok none
    | some s =>
      if s.data.isEmpty then .ok none
      else
        match searchLabeledNum "NPU Temperature (C)" s with
        | none => .ok none
        | some numStr =>
          match pyInt numStr with
          | some n => .ok (some n)
          | none => .error .valueError
  (res, o.2)

/-- `AscendDeviceManager.get_device_power`: scrape `NPU Real-time Power(W)`
from `npu-smi info -i idx -c 0 -t power`. -/
def get_device_power (run : String → RunResult) (idx : Int) :
    Except PyErr (Option Int) × List String :=
  let o := run_npu_smi run ("info -i " ++ toString idx ++ " -c 0 -t power")
  let res : Except PyErr (Option Int) :=
    match o.1 with
    | none => .ok none
    | some s =>
      if s.data.isEmpty then .ok none
      else
        match searchLabeledNum "NPU Real-time Power(W)" s with
        | none => .ok none
        | some numStr =>
          match pyInt numStr with
          | some n => .ok (some n)
          | none => .error .valueError
  (res, o.2)

/-- `AscendDeviceManager.get_device_memory`: one `npu-smi ... -t usage`
invocation; on both patterns present the source returns the pair
`int(used_pct), float(capacity) * int(used_pct)` — the usage percentage in
the first slot and the capacity-times-percentage product in the second. -/
def get_device_memory (run : String → RunResult) (idx : Int) :
    Except PyErr (Option Int × Option PyFloat) × List String :=
  let o := run_npu_smi run ("info -i " ++ toString idx ++ " -c 0 -t usage")
  let res : Except PyErr (Option Int × Option PyFloat) :=
    match o.1 with
    | none => .ok (none, none)
    | some s =>
      if s.data.isEmpty then .ok (none, none)
      else
        match searchLabeledNum "HBM Capacity(MB)" s,
              searchLabeledNum "HBM Usages Rate(%)" s with
        | some totalStr, some usedStr =>
          match pyInt usedStr with
          | none => .error .valueError
          | some u => .ok (some u, some ((pyFloat totalStr).mulInt u))
        | _, _ => .ok (none, none)
  (res, o.2)

/-- `AscendDeviceManager.get_device_ecc_error`: one `npu-smi ... -t ecc`
invocation; on truthy output the source calls `.group(1)` on both
`re.search` results WITHOUT a `None` guard, so a missing pattern raises
`AttributeError` instead of returning `(None, None)`. -/
def get_device_ecc_error (run : String → RunResult) (idx : Int) :
    Except PyErr (Option Int × Option Int) × List String :=
  let o := run_npu_smi run ("info -i " ++ toString idx ++ " -c 0 -t ecc")
  let res : Except PyErr (Option Int × Option Int) :=
    match o.1 with
    | none => .ok (none, none)
    | some s =>
      if s.data.isEmpty then .ok (none, none)
      else
        match searchLabeledNum "HBM Single Bit Aggregate Total Err Cnt" s with
        | none => .error .attributeError
        | some cStr =>
          match pyInt cStr with
          | none => .error .valueError
          | some c =>
            match searchLabeledNum "HBM Double Bit Aggregate Total Err Cnt" s with
            | none => .error .attributeError
            | some uStr =>
              match pyInt uStr with
              | none => .error .valueError
              | some u => .ok (some c, some u)
  (res, o.2)

/-- Inherited from `DeviceManager` — `AscendDeviceManager` does not
override `get_device_power_limit`, so Python method resolution runs the
base body, which never touches the CLI oracle. -/
def get_device_power_limit (_run : String → RunResult) (idx : Int) :
    Option Int × List String :=
  (DeviceManager.get_device_power_limit idx, [])

/-- Inherited from `DeviceManager` — `AscendDeviceManager` does not
override `get_device_row_remapped_info`. -/
def get_device_row_remapped_info (_run : String → RunResult) (idx : Int) :
    Option (List (String × Int)) × List String :=
  (DeviceManager.get_device_row_remapped_info idx, [])

/-- Inherited from `DeviceManager` — `AscendDeviceManager` does not
override `get_device_compute_capability`. -/
def get_device_compute_capability (_run : String → RunResult) :
    Option PyFloat × List String :=
  (DeviceManager.get_device_compute_capability, [])

end AscendDeviceManager

/-! ## Module-level manager selection -/

/-- Which concrete class the module-level `device_manager` ends up being. -/
inductive ManagerKind where
  | base
  | nvidia
  | amd
  | ascend
  deriving DecidableEq, Repr

/-- The module-level selection at the bottom of `device_manager.py`:
`device_manager` starts as the base `DeviceManager()`; the Ascend branch
wraps `AscendDeviceManager()` in `try/except Exception`, logging the error
and keeping the base instance on failure.  The function is total: selection
itself never lets an exception escape. -/
def selectDeviceManager (vendor : Option String) (npuSmiExists : Bool) : ManagerKind :=
  if vendor = some "nvidia" ∨ vendor = some "nvidia-graphics" then .nvidia
  else if vendor = some "amd" ∨ vendor = some "amd-graphics" then .amd
  else if vendor = some "ascend" then
    match AscendDeviceManager.init npuSmiExists with
    | .ok _ => .ascend
    | .error _ => .base
  else .base

/-! ## Helper lemmas -/

/-- An index at or beyond the length, or below `-length`, raises
`IndexError` in Python list indexing. -/
theorem pyListGet_oob {α : Type} (xs : List α) (i : Int)
    (h : (xs.length : Int) ≤ i ∨ i < -(xs.length : Int)) : pyListGet xs i = none := by
  unfold pyListGet pyNormIdx
  split_ifs with h1 h2 h3 <;> try rfl
  all_goals exfalso; omega

/-- A negative index within `[-length, 0)` aliases the element at
`i + length`. -/
theorem pyListGet_neg {α : Type} (xs : List α) (i : Int)
    (h1 : -(xs.length : Int) ≤ i) (h2 : i < 0) :
    pyListGet xs i = xs[(i + (xs.length : Int)).toNat]? := by
  unfold pyListGet pyNormIdx
  split_ifs with ha <;> try rfl
  all_goals exfalso; omega

/-- A non-negative in-range index reads the element directly. -/
theorem pyListGet_nonneg {α : Type} (xs : List α) (i : Int)
    (h1 : 0 ≤ i) (h2 : i < (xs.length : Int)) :
    pyListGet xs i = xs[i.toNat]? := by
  unfold pyListGet pyNormIdx
  split_ifs with ha hb hc <;> try rfl
  all_goals exfalso; omega

/-- A negative index within `[-length, 0)` behaves exactly like the index
`i + length`: Python aliases it to that element. -/
theorem pyListGet_alias {α : Type} (xs : List α) (i : Int)
    (h1 : -(xs.length : Int) ≤ i) (h2 : i < 0) :
    pyListGet xs i = pyListGet xs (i + (xs.length : Int)) := by
  rw [pyListGet_neg xs i h1 h2,
    pyListGet_nonneg xs (i + (xs.length : Int)) (by omega) (by omega)]

/-- `pyListGet_oob` specialised to the NVIDIA handler list
`List.range count`. -/
theorem pyListGet_range_oob (count : Nat) (i : Int)
    (h : (count : Int) ≤ i ∨ i < -(count : Int)) :
    pyListGet (List.range count) i = none :=
  pyListGet_oob _ _ (by simpa [List.length_range] using h)

/-- `pyListGet_alias` specialised to the NVIDIA handler list
`List.range count`. -/
theorem pyListGet_range_alias (count : Nat) (i : Int)
    (h1 : -(count : Int) ≤ i) (h2 : i < 0) :
    pyListGet (List.range count) i = pyListGet (List.range count) (i + (count : Int)) := by
  have := pyListGet_alias (List.range count) i (by simpa [List.length_range] using h1) h2
  simpa [List.length_range] using this

/-- When indexing the handler list raises `IndexError`, every iteration of
the AMD ECC loop hits the generic `except` arm and the accumulators pass
through unchanged. -/
theorem amd_ecc_loop_index_error (handlers : List Nat)
    (backend : Nat → Nat → AmdDeviceManager.AmdEccRes) (idx : Int)
    (hnone : pyListGet handlers idx = none) :
    ∀ (bl : List Nat) (c u : Int),
      AmdDeviceManager.ecc_loop handlers backend idx bl c u = (c, u) := by
  intro bl
  induction bl with
  | nil => intro c u; rfl
  | cons b rest ih =>
    intro c u
    simpa [AmdDeviceManager.ecc_loop, hnone] using ih c u

/-- When every AMD per-block counter query raises the library/parameter
exception, the loop leaves the accumulators unchanged. -/
theorem amd_ecc_loop_all_unsupported (handlers : List Nat)
    (backend : Nat → Nat → AmdDeviceManager.AmdEccRes) (idx : Int)
    (hb : ∀ h b, backend h b = AmdDeviceManager.AmdEccRes.libErr) :
    ∀ (bl : List Nat) (c u : Int),
      AmdDeviceManager.ecc_loop handlers backend idx bl c u = (c, u) := by
  intro bl
  induction bl with
  | nil => intro c u; rfl
  | cons b rest ih =>
    intro c u
    cases hpg : pyListGet handlers idx with
    | none => simpa [AmdDeviceManager.ecc_loop, hpg] using ih c u
    | some h => simpa [AmdDeviceManager.ecc_loop, hpg, hb] using ih c u

/-- When every NVML memory-error-counter query raises `NVMLError`
(the "not supported" signal), the NVIDIA ECC loop leaves the accumulators
unchanged. -/
theorem nv_ecc_loop_all_unsupported (count : Nat)
    (backend : Nat → NvidiaDeviceManager.EccKind → Nat → NvidiaDeviceManager.NvRes)
    (idx : Int) (hdl : Nat)
    (hidx : pyListGet (List.range count) idx = some hdl)
    (hb : ∀ h k loc, backend h k loc = NvidiaDeviceManager.NvRes.nvmlErr) :
    ∀ (l : List Nat) (c u : Int),
      NvidiaDeviceManager.ecc_loop count backend idx l c u = (some c, some u) := by
  intro l
  induction l with
  | nil => intro c u; rfl
  | cons loc rest ih =>
    intro c u
    simpa [NvidiaDeviceManager.ecc_loop, hidx, hb] using ih c u

/-- The NVIDIA ECC loop depends on the device index only through the
handler lookup: two indices with the same lookup result drive the loop
identically. -/
theorem nv_ecc_loop_congr (count : Nat)
    (backend : Nat → NvidiaDeviceManager.EccKind → Nat → NvidiaDeviceManager.NvRes)
    (i1 i2 : Int)
    (hpg : pyListGet (List.range count) i1 = pyListGet (List.range count) i2) :
    ∀ (l : List Nat) (c u : Int),
      NvidiaDeviceManager.ecc_loop count backend i1 l c u
        = NvidiaDeviceManager.ecc_loop count backend i2 l c u := by
  intro l
  induction l with
  | nil => intro c u; rfl
  | cons loc rest ih =>
    intro c u
    simp only [NvidiaDeviceManager.ecc_loop, hpg]
    cases pyListGet (List.range count) i2 with
    | none => rfl
    | some h =>
      dsimp only
      cases backend h NvidiaDeviceManager.EccKind.corrected loc with
      | otherErr => rfl
      | nvmlErr =>
        dsimp only
        cases backend h NvidiaDeviceManager.EccKind.uncorrected loc with
        | otherErr => rfl
        | nvmlErr => exact ih c u
        | ok k => exact ih c (u + k)
      | ok k =>
        dsimp only
        cases backend h NvidiaDeviceManager.EccKind.uncorrected loc with
        | otherErr => rfl
        | nvmlErr => exact ih (c + k) u
        | ok k2 => exact ih (c + k) (u + k2)

/-- The AMD ECC loop depends on the device index only through the handler
lookup. -/
theorem amd_ecc_loop_congr (handlers : List Nat)
    (backend : Nat → Nat → AmdDeviceManager.AmdEccRes) (i1 i2 : Int)
    (hpg : pyListGet handlers i1 = pyListGet handlers i2) :
    ∀ (bl : List Nat) (c u : Int),
      AmdDeviceManager.ecc_loop handlers backend i1 bl c u
        = AmdDeviceManager.ecc_loop handlers backend i2 bl c u := by
  intro bl
  induction bl with
  | nil => intro c u; rfl
  | cons b rest ih =>
    intro c u
    simp only [AmdDeviceManager.ecc_loop, hpg]
    cases pyListGet handlers i2 with
    | none => exact ih c u
    | some h =>
      dsimp only
      cases backend h b with
      | ok cc uc => exact ih (c + cc) (u + uc)
      | libErr => exact ih c u
      | otherErr => exact ih c u

/-! ## Concrete sample inputs used by the claim theorems -/

/-- An `npu-smi ... -t usage` output reporting capacity 32768 MB and usage
rate 50 %. -/
def ascendUsageSample : String :=
  "HBM Capacity(MB)               : 32768\nHBM Usages Rate(%)             : 50\n"

/-- Oracle: every spawned command exits 0 with `ascendUsageSample` on
stdout. -/
def ascendUsageRun : String → RunResult := fun _ => ⟨0, ascendUsageSample, ""⟩

/-- An `npu-smi ... -t ecc` output that does not contain the HBM aggregate
error-count lines. -/
def ascendNoEccSample : String := "ECC info unavailable"

/-- Oracle: every spawned command exits 0 with `ascendNoEccSample` on
stdout. -/
def ascendNoEccRun : String → RunResult := fun _ => ⟨0, ascendNoEccSample, ""⟩

/-- The literal `nvidia-smi -q` sample block from the spec's row-remap
parsing property. -/
def remapSampleOutput : String :=
  "Remapped Rows\n    Correctable Error  : 0\n    Pending  : No\nTemperature\n..."

/-- Oracle: `nvidia-smi` exits 0 with `remapSampleOutput` on stdout. -/
def remapSampleRun : String → RunResult := fun _ => ⟨0, remapSampleOutput, ""⟩

/-- Linux host: Ascend management node present, zero indexed device
nodes. -/
def fsAscendNoNodes : SysFS :=
  ⟨.linux, false, [], false, false, [], true, [], fun _ => false, false, false⟩

/-- Linux host: Ascend management node and one device node, but no minor
descriptor. -/
def fsAscendNoMinor : SysFS :=
  ⟨.linux, false, [], false, false, [], true, ["davinci0"], fun _ => false, false, false⟩

/-- Linux host: Ascend management node, one device node, and its minor
descriptor. -/
def fsAscendFull : SysFS :=
  ⟨.linux, false, [], false, false, [], true, ["davinci0"], fun _ => true, false, false⟩

/-! ## Claim theorems -/

/-- C1, counterexample.  On a CLI output reporting capacity 32768 (MB) and
usage 50 (%), the used slot of the pair returned by the Ascend memory query
holds the raw usage percentage 50, not the documented
`total_capacity * usage_percentage` product 1638400: the claim as stated is
false at this input. -/
theorem ascend_memory_used_slot_counterexample :
    (AscendDeviceManager.get_device_memory ascendUsageRun 0).1
      = Except.ok (some 50, some (PyFloat.mk 1638400 0)) ∧ (50 : Int) ≠ 32768 * 50 :=
  ⟨by decide, by decide⟩

/-- C1, amended.  On a CLI output reporting capacity 32768 (MB) and usage
50 (%), the Ascend memory query returns the usage percentage 50 in the used
slot and the `total_capacity * usage_percentage` product `32768 * 50` in
the total slot. -/
theorem ascend_memory_product_in_total_slot :
    (AscendDeviceManager.get_device_memory ascendUsageRun 0).1
      = Except.ok (some 50, some (PyFloat.mk (32768 * 50) 0)) := by
  decide

/-- C2.  On a successful CLI invocation whose output lacks the HBM
aggregate error-count patterns, the Ascend ECC query raises
`AttributeError` (`None.group(1)`) instead of returning the documented
`(None, None)`: the source omits the `if match` guard its sibling methods
have. -/
theorem ascend_ecc_missing_pattern_raises :
    (AscendDeviceManager.get_device_ecc_error ascendNoEccRun 0).1
        = Except.error PyErr.attributeError ∧
      (AscendDeviceManager.get_device_ecc_error ascendNoEccRun 0).1
        ≠ Except.ok (none, none) :=
  ⟨by decide, by decide⟩

/-- C3, counterexample.  With two NVIDIA devices whose utilizations are 9
and 19, index `-1` (outside `[0, device_count)`) returns the last device's
real utilization 19, not the unavailable value; and with two AMD devices,
the AMD ECC query at out-of-range index 5 returns `(0, 0)`, not
`(None, None)`. -/
theorem out_of_range_returns_real_metric_counterexample :
    NvidiaDeviceManager.get_device_utilization 2
        (fun h => Except.ok (10 * (h : Int) + 9)) (-1) = some 19 ∧
      some (19 : Int) ≠ (none : Option Int) ∧
      AmdDeviceManager.get_device_ecc_error [0, 1] [0]
        (fun _ _ => AmdDeviceManager.AmdEccRes.ok 5 7) 5 = (some 0, some 0) ∧
      (some (0 : Int), some (0 : Int)) ≠ ((none : Option Int), (none : Option Int)) :=
  ⟨by decide, by decide, by decide, by decide⟩

/-- C3, amended.  Indices outside `[-device_count, device_count)` never
fault but are not uniformly reported unavailable: the base manager's
queries and every NVIDIA and AMD handler-indexed per-index query return
their documented unavailable value — except AMD's ECC query, which returns
`(0, 0)` because its generic `except` arm logs and continues; the
CLI-driven queries (NVIDIA row-remap, all Ascend metric queries) return
their unavailable value whenever the tool invocation for the absent device
fails, and the Ascend power-limit / row-remap / compute-capability queries
are always unavailable; a negative index in `[-device_count, -1]`,
however, is aliased by Python list indexing to `device_count + idx`, and
every NVIDIA and AMD handler-indexed query behaves exactly like the query
on that real device. -/
theorem out_of_range_index_amended :
    (∀ idx : Int,
        DeviceManager.get_device_utilization idx = none ∧
          DeviceManager.get_device_temperature idx = none ∧
          DeviceManager.get_device_power idx = none ∧
          DeviceManager.get_device_power_limit idx = none ∧
          DeviceManager.get_device_memory idx = (none, none) ∧
          DeviceManager.get_device_row_remapped_info idx = none ∧
          DeviceManager.get_device_ecc_error idx = (none, none)) ∧
      (∀ (count : Nat) (idx : Int),
        ((count : Int) ≤ idx ∨ idx < -(count : Int)) →
        (∀ backend : Nat → Except Unit Int,
            NvidiaDeviceManager.get_device_utilization count backend idx = none) ∧
          (∀ backend : Nat → Except Unit Int,
            NvidiaDeviceManager.get_device_temperature count backend idx = none) ∧
          (∀ backend : Nat → Except Unit Nat,
            NvidiaDeviceManager.get_device_power count backend idx = none) ∧
          (∀ backend : Nat → Except Unit Nat,
            NvidiaDeviceManager.get_device_power_limit count backend idx = none) ∧
          (∀ backend : Nat → Except Unit (Int × Int),
            NvidiaDeviceManager.get_device_memory count backend idx = (none, none)) ∧
          (∀ (locationCount : Nat)
              (backend : Nat → NvidiaDeviceManager.EccKind → Nat → NvidiaDeviceManager.NvRes),
            0 < locationCount →
            NvidiaDeviceManager.get_device_ecc_error count locationCount backend idx
              = (none, none)) ∧
          (∀ run : String → RunResult, (∀ c, (run c).returncode ≠ 0) →
            NvidiaDeviceManager.get_device_row_remapped_info run idx = none)) ∧
      (∀ (count : Nat) (idx : Int), -(count : Int) ≤ idx → idx < 0 →
        (∀ backend : Nat → Except Unit Int,
            NvidiaDeviceManager.get_device_utilization count backend idx
              = NvidiaDeviceManager.get_device_utilization count backend
                  (idx + (count : Int))) ∧
          (∀ backend : Nat → Except Unit Int,
            NvidiaDeviceManager.get_device_temperature count backend idx
              = NvidiaDeviceManager.get_device_temperature count backend
                  (idx + (count : Int))) ∧
          (∀ backend : Nat → Except Unit Nat,
            NvidiaDeviceManager.get_device_power count backend idx
              = NvidiaDeviceManager.get_device_power count backend (idx + (count : Int))) ∧
          (∀ backend : Nat → Except Unit Nat,
            NvidiaDeviceManager.get_device_power_limit count backend idx
              = NvidiaDeviceManager.get_device_power_limit count backend
                  (idx + (count : Int))) ∧
          (∀ backend : Nat → Except Unit (Int × Int),
            NvidiaDeviceManager.get_device_memory count backend idx
              = NvidiaDeviceManager.get_device_memory count backend (idx + (count : Int))) ∧
          (∀ (locationCount : Nat)
              (backend : Nat → NvidiaDeviceManager.EccKind → Nat → NvidiaDeviceManager.NvRes),
            NvidiaDeviceManager.get_device_ecc_error count locationCount backend idx
              = NvidiaDeviceManager.get_device_ecc_error count locationCount backend
                  (idx + (count : Int)))) ∧
      (∀ (handlers : List Nat) (idx : Int),
        ((handlers.length : Int) ≤ idx ∨ idx < -(handlers.length : Int)) →
        (∀ backend : Nat → Except Unit Int,
            AmdDeviceManager.get_device_utilization handlers backend idx = none) ∧
          (∀ backend : Nat → Except Unit Int,
            AmdDeviceManager.get_device_temperature handlers backend idx = none) ∧
          (∀ backend : Nat → Except Unit Int,
            AmdDeviceManager.get_device_power handlers backend idx = none) ∧
          (∀ backend : Nat → Except Unit Int,
            AmdDeviceManager.get_device_power_limit handlers backend idx = none) ∧
          (∀ backendUsed backendTotal : Nat → Except Unit Int,
            AmdDeviceManager.get_device_memory handlers backendUsed backendTotal idx
              = (none, none)) ∧
          (∀ (blocks : List Nat) (backend : Nat → Nat → AmdDeviceManager.AmdEccRes),
            AmdDeviceManager.get_device_ecc_error handlers blocks backend idx
              = (some 0, some 0))) ∧
      (∀ (handlers : List Nat) (idx : Int),
        -(handlers.length : Int) ≤ idx → idx < 0 →
        (∀ backend : Nat → Except Unit Int,
            AmdDeviceManager.get_device_utilization handlers backend idx
              = AmdDeviceManager.get_device_utilization handlers backend
                  (idx + (handlers.length : Int))) ∧
          (∀ backend : Nat → Except Unit Int,
            AmdDeviceManager.get_device_temperature handlers backend idx
              = AmdDeviceManager.get_device_temperature handlers backend
                  (idx + (handlers.length : Int))) ∧
          (∀ backend : Nat → Except Unit Int,
            AmdDeviceManager.get_device_power handlers backend idx
              = AmdDeviceManager.get_device_power handlers backend
                  (idx + (handlers.length : Int))) ∧
          (∀ backend : Nat → Except Unit Int,
            AmdDeviceManager.get_device_power_limit handlers backend idx
              = AmdDeviceManager.get_device_power_limit handlers backend
                  (idx + (handlers.length : Int))) ∧
          (∀ backendUsed backendTotal : Nat → Except Unit Int,
            AmdDeviceManager.get_device_memory handlers backendUsed backendTotal idx
              = AmdDeviceManager.get_device_memory handlers backendUsed backendTotal
                  (idx + (handlers.length : Int))) ∧
          (∀ (blocks : List Nat) (backend : Nat → Nat → AmdDeviceManager.AmdEccRes),
            AmdDeviceManager.get_device_ecc_error handlers blocks backend idx
              = AmdDeviceManager.get_device_ecc_error handlers blocks backend
                  (idx + (handlers.length : Int)))) ∧
      (∀ (run : String → RunResult) (idx : Int), (∀ c, (run c).returncode ≠ 0) →
        (AscendDeviceManager.get_device_utilization run idx).1 = Except.ok none ∧
          (AscendDeviceManager.get_device_temperature run idx).1 = Except.ok none ∧
          (AscendDeviceManager.get_device_power run idx).1 = Except.ok none ∧
          (AscendDeviceManager.get_device_memory run idx).1 = Except.ok (none, none) ∧
          (AscendDeviceManager.get_device_ecc_error run idx).1 = Except.ok (none, none)) ∧
      (∀ (run : String → RunResult) (idx : Int),
        (AscendDeviceManager.get_device_power_limit run idx).1 = none ∧
          (AscendDeviceManager.get_device_row_remapped_info run idx).1 = none ∧
          (AscendDeviceManager.get_device_compute_capability run).1 = none) := by
  refine ⟨fun _ => ⟨rfl, rfl, rfl, rfl, rfl, rfl, rfl⟩, ?_, ?_, ?_, ?_, ?_,
    fun _ _ => ⟨rfl, rfl, rfl⟩⟩
  · intro count idx h
    have hnone := pyListGet_range_oob count idx h
    refine ⟨?_, ?_, ?_, ?_, ?_, ?_, ?_⟩
    · intro backend
      unfold NvidiaDeviceManager.get_device_utilization
      rw [hnone]
    · intro backend
      unfold NvidiaDeviceManager.get_device_temperature
      rw [hnone]
    · intro backend
      unfold NvidiaDeviceManager.get_device_power
      rw [hnone]
    · intro backend
      unfold NvidiaDeviceManager.get_device_power_limit
      rw [hnone]
    · intro backend
      unfold NvidiaDeviceManager.get_device_memory
      rw [hnone]
    · intro locationCount backend hpos
      unfold NvidiaDeviceManager.get_device_ecc_error
      cases hr : List.range locationCount with
      | nil => exact absurd (List.range_eq_nil.mp hr) (by omega)
      | cons a l =>
        simp only [NvidiaDeviceManager.ecc_loop, hnone]
    · intro run hrun
      unfold NvidiaDeviceManager.get_device_row_remapped_info
      rw [if_neg (hrun _)]
  · intro count idx h1 h2
    have halias := pyListGet_range_alias count idx h1 h2
    refine ⟨?_, ?_, ?_, ?_, ?_, ?_⟩
    · intro backend
      unfold NvidiaDeviceManager.get_device_utilization
      rw [halias]
    · intro backend
      unfold NvidiaDeviceManager.get_device_temperature
      rw [halias]
    · intro backend
      unfold NvidiaDeviceManager.get_device_power
      rw [halias]
    · intro backend
      unfold NvidiaDeviceManager.get_device_power_limit
      rw [halias]
    · intro backend
      unfold NvidiaDeviceManager.get_device_memory
      rw [halias]
    · intro locationCount backend
      unfold NvidiaDeviceManager.get_device_ecc_error
      exact nv_ecc_loop_congr count backend idx (idx + (count : Int)) halias
        (List.range locationCount) 0 0
  · intro handlers idx h
    have hnone := pyListGet_oob handlers idx h
    refine ⟨?_, ?_, ?_, ?_, ?_, ?_⟩
    · intro backend
      unfold AmdDeviceManager.get_device_utilization
      rw [hnone]
    · intro backend
      unfold AmdDeviceManager.get_device_temperature
      rw [hnone]
    · intro backend
      unfold AmdDeviceManager.get_device_power
      rw [hnone]
    · intro backend
      unfold AmdDeviceManager.get_device_power_limit
      rw [hnone]
    · intro backendUsed backendTotal
      unfold AmdDeviceManager.get_device_memory
      rw [hnone]
    · intro blocks backend
      simp [AmdDeviceManager.get_device_ecc_error,
        amd_ecc_loop_index_error handlers backend idx hnone]
  · intro handlers idx h1 h2
    have halias := pyListGet_alias handlers idx h1 h2
    refine ⟨?_, ?_, ?_, ?_, ?_, ?_⟩
    · intro backend
      unfold AmdDeviceManager.get_device_utilization
      rw [halias]
    · intro backend
      unfold AmdDeviceManager.get_device_temperature
      rw [halias]
    · intro backend
      unfold AmdDeviceManager.get_device_power
      rw [halias]
    · intro backend
      unfold AmdDeviceManager.get_device_power_limit
      rw [halias]
    · intro backendUsed backendTotal
      unfold AmdDeviceManager.get_device_memory
      rw [halias]
    · intro blocks backend
      unfold AmdDeviceManager.get_device_ecc_error
      rw [amd_ecc_loop_congr handlers backend idx (idx + (handlers.length : Int)) halias
        blocks 0 0]
  · intro run idx hrun
    refine ⟨?_, ?_, ?_, ?_, ?_⟩
    · simp only [AscendDeviceManager.get_device_utilization, AscendDeviceManager.run_npu_smi]
      rw [if_pos (hrun _)]
    · simp only [AscendDeviceManager.get_device_temperature, AscendDeviceManager.run_npu_smi]
      rw [if_pos (hrun _)]
    · simp only [AscendDeviceManager.get_device_power, AscendDeviceManager.run_npu_smi]
      rw [if_pos (hrun _)]
    · simp only [AscendDeviceManager.get_device_memory, AscendDeviceManager.run_npu_smi]
      rw [if_pos (hrun _)]
    · simp only [AscendDeviceManager.get_device_ecc_error, AscendDeviceManager.run_npu_smi]
      rw [if_pos (hrun _)]

/-- C3, amended, witness at concrete inputs covering every
hypothesis-bearing group: NVIDIA out-of-range (utilization, ECC,
row-remap), NVIDIA negative-index aliasing, AMD out-of-range (utilization,
ECC), AMD negative-index aliasing, and an Ascend query whose CLI
invocation fails. -/
theorem out_of_range_index_amended_witness :
    NvidiaDeviceManager.get_device_utilization 2 (fun _ => Except.ok 7) 5 = none ∧
      NvidiaDeviceManager.get_device_ecc_error 2 3
        (fun _ _ _ => NvidiaDeviceManager.NvRes.ok 1) 5 = (none, none) ∧
      NvidiaDeviceManager.get_device_row_remapped_info (fun _ => ⟨1, "", ""⟩) 5 = none ∧
      NvidiaDeviceManager.get_device_utilization 2
          (fun h => Except.ok (10 * (h : Int) + 9)) (-2)
        = NvidiaDeviceManager.get_device_utilization 2
            (fun h => Except.ok (10 * (h : Int) + 9)) (-2 + (2 : Int)) ∧
      AmdDeviceManager.get_device_utilization [0, 1] (fun _ => Except.ok 3) 9 = none ∧
      AmdDeviceManager.get_device_ecc_error [0, 1] [0, 1]
        (fun _ _ => AmdDeviceManager.AmdEccRes.ok 5 7) 9 = (some 0, some 0) ∧
      AmdDeviceManager.get_device_temperature [0, 1] (fun h => Except.ok (h : Int)) (-1)
        = AmdDeviceManager.get_device_temperature [0, 1] (fun h => Except.ok (h : Int))
            (-1 + (2 : Int)) ∧
      (AscendDeviceManager.get_device_utilization (fun _ => ⟨1, "", ""⟩) 99).1
        = Except.ok none ∧
      (AscendDeviceManager.get_device_ecc_error (fun _ => ⟨1, "", ""⟩) 99).1
        = Except.ok (none, none) :=
  ⟨(out_of_range_index_amended.2.1 2 5 (by decide)).1 (fun _ => Except.ok 7),
    (out_of_range_index_amended.2.1 2 5 (by decide)).2.2.2.2.2.1 3
      (fun _ _ _ => NvidiaDeviceManager.NvRes.ok 1) (by decide),
    (out_of_range_index_amended.2.1 2 5 (by decide)).2.2.2.2.2.2
      (fun _ => ⟨1, "", ""⟩) (fun _ => by exact one_ne_zero),
    (out_of_range_index_amended.2.2.1 2 (-2) (by decide) (by decide)).1
      (fun h => Except.ok (10 * (h : Int) + 9)),
    (out_of_range_index_amended.2.2.2.1 [0, 1] 9 (by decide)).1 (fun _ => Except.ok 3),
    (out_of_range_index_amended.2.2.2.1 [0, 1] 9 (by decide)).2.2.2.2.2 [0, 1]
      (fun _ _ => AmdDeviceManager.AmdEccRes.ok 5 7),
    (out_of_range_index_amended.2.2.2.2.1 [0, 1] (-1) (by decide) (by decide)).2.1
      (fun h => Except.ok (h : Int)),
    (out_of_range_index_amended.2.2.2.2.2.1 (fun _ => ⟨1, "", ""⟩) 99
      (fun _ => by exact one_ne_zero)).1,
    (out_of_range_index_amended.2.2.2.2.2.1 (fun _ => ⟨1, "", ""⟩) 99
      (fun _ => by exact one_ne_zero)).2.2.2.2⟩

/-- C4.  If every per-memory-location NVML counter query (for a valid
device index) and every per-GPU-block AMD counter query signals the
backend's "unsupported" condition, the ECC query returns corrected count 0
and uncorrected count 0, not the unavailable value. -/
theorem ecc_all_unsupported_sums_zero :
    (∀ (count locationCount : Nat)
        (backend : Nat → NvidiaDeviceManager.EccKind → Nat → NvidiaDeviceManager.NvRes)
        (idx : Int) (hdl : Nat),
        pyListGet (List.range count) idx = some hdl →
        (∀ h k loc, backend h k loc = NvidiaDeviceManager.NvRes.nvmlErr) →
        NvidiaDeviceManager.get_device_ecc_error count locationCount backend idx
          = (some 0, some 0)) ∧
      (∀ (handlers blocks : List Nat) (backend : Nat → Nat → AmdDeviceManager.AmdEccRes)
          (idx : Int),
        (∀ h b, backend h b = AmdDeviceManager.AmdEccRes.libErr) →
        AmdDeviceManager.get_device_ecc_error handlers blocks backend idx
          = (some 0, some 0)) := by
  constructor
  · intro count locationCount backend idx hdl hidx hb
    unfold NvidiaDeviceManager.get_device_ecc_error
    exact nv_ecc_loop_all_unsupported count backend idx hdl hidx hb (List.range locationCount) 0 0
  · intro handlers blocks backend idx hb
    simp [AmdDeviceManager.get_device_ecc_error,
      amd_ecc_loop_all_unsupported handlers backend idx hb]

/-- C4, witness at concrete inputs. -/
theorem ecc_all_unsupported_sums_zero_witness :
    NvidiaDeviceManager.get_device_ecc_error 1 3
        (fun _ _ _ => NvidiaDeviceManager.NvRes.nvmlErr) 0 = (some 0, some 0) ∧
      AmdDeviceManager.get_device_ecc_error [0] [0, 1]
        (fun _ _ => AmdDeviceManager.AmdEccRes.libErr) 0 = (some 0, some 0) :=
  ⟨ecc_all_unsupported_sums_zero.1 1 3 _ 0 0 (by decide) (fun _ _ _ => rfl),
    ecc_all_unsupported_sums_zero.2 [0] [0, 1] _ 0 (fun _ _ => rfl)⟩

/-- C5.  On the literal sample block, the NVIDIA row-remap parser yields
exactly the mapping with `gpu_remap_correctable_error = 0`; in particular
that key is present with value 0 and no key exists for the `Pending` line,
whose value `No` is not an integer. -/
theorem row_remap_sample_parse :
    NvidiaDeviceManager.get_device_row_remapped_info remapSampleRun 0
        = some [("gpu_remap_correctable_error", 0)] ∧
      dictFind [("gpu_remap_correctable_error", (0 : Int))] "gpu_remap_correctable_error"
        = some 0 ∧
      dictFind [("gpu_remap_correctable_error", (0 : Int))] "gpu_remap_pending" = none :=
  ⟨by decide, by decide, by decide⟩

/-- C6.  On a Linux host with no NVIDIA or AMD driver artifacts and the
Ascend management node present: zero indexed device nodes give `none`; an
indexed node without its minor descriptor gives `none`; an indexed node
with its minor descriptor gives `ascend`. -/
theorem ascend_detection_gate (fs : SysFS) (hos : fs.os = .linux)
    (hnv : fs.nvidiactlIsCharDevice = false)
    (hamd : (fs.kfdIsCharDevice && fs.driIsDir) = false)
    (hmgr : fs.davinciManagerExists = true) :
    (fs.davinciNodes = [] → getVendor fs = none) ∧
      (∀ d rest, fs.davinciNodes = d :: rest → fs.minorDescExists d = false →
        getVendor fs = none) ∧
      (∀ d rest, fs.davinciNodes = d :: rest → fs.minorDescExists d = true →
        getVendor fs = some "ascend") := by
  refine ⟨?_, ?_, ?_⟩
  · intro hn
    simp [getVendor, hos, hnv, hamd, hmgr, hn]
  · intro d rest hn hm
    simp [getVendor, hos, hnv, hamd, hmgr, hn, hm]
  · intro d rest hn hm
    simp [getVendor, hos, hnv, hamd, hmgr, hn, hm]

/-- C6, witness at the three concrete host configurations. -/
theorem ascend_detection_gate_witness :
    getVendor fsAscendNoNodes = none ∧
      getVendor fsAscendNoMinor = none ∧
      getVendor fsAscendFull = some "ascend" :=
  ⟨(ascend_detection_gate fsAscendNoNodes rfl rfl rfl rfl).1 rfl,
    (ascend_detection_gate fsAscendNoMinor rfl rfl rfl rfl).2.1 "davinci0" [] rfl rfl,
    (ascend_detection_gate fsAscendFull rfl rfl rfl rfl).2.2 "davinci0" [] rfl rfl⟩

/-- C7.  Every operation of the base (no-op) manager returns its documented
unavailable value — count 0, capability `None`, each per-index metric
`None`, memory and ECC `(None, None)` — and, being closed constants with no
backend or oracle parameter, does so with zero backend interaction. -/
theorem base_manager_all_unavailable :
    DeviceManager.get_device_count = 0 ∧
      DeviceManager.get_device_compute_capability = none ∧
      ∀ idx : Int,
        DeviceManager.get_device_utilization idx = none ∧
          DeviceManager.get_device_temperature idx = none ∧
          DeviceManager.get_device_power idx = none ∧
          DeviceManager.get_device_power_limit idx = none ∧
          DeviceManager.get_device_memory idx = (none, none) ∧
          DeviceManager.get_device_row_remapped_info idx = none ∧
          DeviceManager.get_device_ecc_error idx = (none, none) :=
  ⟨rfl, rfl, fun _ => ⟨rfl, rfl, rfl, rfl, rfl, rfl, rfl⟩⟩

/-- C8.  Ascend construction raises `RuntimeError` exactly when the
`npu-smi` binary is absent from its fixed install path, and the
module-level selection catches that failure and keeps the no-op base
manager; `selectDeviceManager` is a total function, so selection never
escalates. -/
theorem ascend_construction_and_selection :
    ∀ b : Bool,
      (AscendDeviceManager.init b = Except.error PyErr.runtimeError ↔ b = false) ∧
        selectDeviceManager (some "ascend") b
          = (if b then ManagerKind.ascend else ManagerKind.base) := by
  intro b
  cases b <;> exact ⟨by decide, by decide⟩

/-- C9.  Vendor detection is a pure function of the filesystem artifacts it
inspects: two runs over identical artifact sets return the same tag. -/
theorem getVendor_deterministic (fs fs' : SysFS) (h : fs = fs') :
    getVendor fs = getVendor fs' := by
  rw [h]

/-- C9, witness at a concrete host configuration. -/
theorem getVendor_deterministic_witness :
    getVendor fsAscendFull = getVendor fsAscendFull :=
  getVendor_deterministic fsAscendFull fsAscendFull rfl

/-- C10.  The Ascend manager inherits power-limit, row-remap and
compute-capability from the base class: for every CLI oracle and every
index they return the inherited unavailable value and issue no CLI
command. -/
theorem ascend_inherited_ops_unavailable :
    ∀ (run : String → RunResult) (idx : Int),
      AscendDeviceManager.get_device_power_limit run idx = (none, []) ∧
        AscendDeviceManager.get_device_row_remapped_info run idx = (none, []) ∧
        AscendDeviceManager.get_device_compute_capability run = (none, []) :=
  fun _ _ => ⟨rfl, rfl, rfl⟩

end SuperBench
